import Mathlib

/-!
Verification of the Focal attention-classification engine and escalation
state machine.  Definitions are shallow embeddings of the TypeScript
source: `focusClassifier.ts`, `focusStore.ts`, `useEscalation.ts`,
`gemini.ts` and the prompt-template fallback pool.  Numbers are modelled
with `ℚ` (confidences, angles) and `Nat` (millisecond timestamps);
JavaScript transcendental calls (`Math.atan2` composed with the
radians-to-degrees factor) are abstracted as a function parameter, since
every verified property is independent of its value.
-/

namespace Focal

/-- Attention states; `FocusState` in focusClassifier.ts. -/
inductive FocusState where
  | focused
  | distracted
  | idle
  | unknown
deriving DecidableEq, Repr

/-- Head pose angles in degrees; `HeadPose` in focusClassifier.ts. -/
structure HeadPose where
  yaw : ℚ
  pitch : ℚ
  roll : ℚ
deriving DecidableEq, Repr

/-- Oracle verdict; `OvershootAnalysis` in focusClassifier.ts (the
`focused`/`thinking` fields are never read by the classifier and are
omitted). -/
structure OvershootAnalysis where
  state : FocusState
  reason : String
  confidence : ℚ
deriving DecidableEq, Repr

/-- Classifier input; `FocusClassifierInput` in focusClassifier.ts. -/
structure FocusClassifierInput where
  faceDetected : Bool
  headPose : Option HeadPose
  eyesOpen : Bool
  confidence : ℚ
  overshootAnalysis : Option OvershootAnalysis
deriving DecidableEq, Repr

/-- Classifier output; `FocusClassifierResult` in focusClassifier.ts. -/
structure FocusClassifierResult where
  state : FocusState
  confidence : ℚ
  reason : String
deriving DecidableEq, Repr

/-- `THRESHOLDS.YAW_DISTRACTED` in focusClassifier.ts. -/
def YAW_DISTRACTED : ℚ := 25

/-- `THRESHOLDS.PITCH_DISTRACTED` in focusClassifier.ts. -/
def PITCH_DISTRACTED : ℚ := 20

/-- `THRESHOLDS.MIN_CONFIDENCE` in focusClassifier.ts. -/
def MIN_CONFIDENCE : ℚ := 0.5

/-- JavaScript `Math.round`: round half toward positive infinity. -/
def jsRound (q : ℚ) : ℤ := ⌊q + 1 / 2⌋

/-- Decimal digit list of a natural number (most significant first),
modelling JavaScript number-to-string interpolation of an integer. -/
def natDigits (n : Nat) : List Char :=
  if _h : n < 10 then [Nat.digitChar n]
  else natDigits (n / 10) ++ [Nat.digitChar (n % 10)]
decreasing_by exact Nat.div_lt_self (by omega) (by omega)

/-- Decimal rendering of a natural number as a string. -/
def natRepr (n : Nat) : String := String.mk (natDigits n)

/-- The MediaPipe-local verdict computed at focusClassifier.ts lines
108-130 (the `mediapipeState` / `mediapipeConfidence` /
`mediapipeReason` let-block). -/
structure MediapipeVerdict where
  state : FocusState
  confidence : ℚ
  reason : String
deriving DecidableEq, Repr

/-- Lines 108-130 of focusClassifier.ts: the pose-based local verdict. -/
def mediapipeVerdict (hp : HeadPose) (eyesOpen : Bool) (confidence : ℚ) :
    MediapipeVerdict :=
  if |hp.yaw| > YAW_DISTRACTED then
    { state := FocusState.distracted
      confidence := min 1 (|hp.yaw| / 45),
      reason := "Looking " ++ (if hp.yaw > 0 then "right" else "left") ++
        " (" ++ natRepr (jsRound |hp.yaw|).toNat ++ "°)" }
  else if |hp.pitch| > PITCH_DISTRACTED then
    { state := FocusState.distracted
      confidence := min 1 (|hp.pitch| / 40),
      reason := "Looking " ++ (if hp.pitch > 0 then "down" else "up") ++
        " (" ++ natRepr (jsRound |hp.pitch|).toNat ++ "°)" }
  else if eyesOpen = false then
    { state := FocusState.distracted, confidence := 0.6
      reason := "Eyes appear closed" }
  else
    { state := FocusState.focused, confidence := confidence
      reason := "Looking at screen" }

/-- `classifyFocusState` of focusClassifier.ts, branch for branch. -/
def classifyFocusState (input : FocusClassifierInput) : FocusClassifierResult :=
  if input.faceDetected = false then
    match input.overshootAnalysis with
    | some oa =>
      if oa.confidence > 0.8 ∧ oa.state = FocusState.focused then
        { state := FocusState.focused, confidence := oa.confidence * 0.7
          reason := "AI: " ++ oa.reason }
      else
        { state := FocusState.idle, confidence := 1
          reason := "No face detected in frame" }
    | none =>
        { state := FocusState.idle, confidence := 1
          reason := "No face detected in frame" }
  else if input.confidence < MIN_CONFIDENCE then
    match input.overshootAnalysis with
    | some oa =>
      if oa.confidence > 0.7 then
        { state := oa.state, confidence := oa.confidence * 0.8
          reason := "AI: " ++ oa.reason }
      else
        { state := FocusState.unknown, confidence := input.confidence
          reason := "Face detection confidence too low" }
    | none =>
        { state := FocusState.unknown, confidence := input.confidence
          reason := "Face detection confidence too low" }
  else
    match input.headPose with
    | none =>
      match input.overshootAnalysis with
      | some oa =>
          { state := oa.state, confidence := oa.confidence * 0.9
            reason := "AI: " ++ oa.reason }
      | none =>
          { state := FocusState.unknown, confidence := 0.5
            reason := "Head pose estimation unavailable" }
    | some hp =>
      let m := mediapipeVerdict hp input.eyesOpen input.confidence
      match input.overshootAnalysis with
      | some oa =>
        if m.state = oa.state then
          { state := m.state
            confidence := min 1 ((m.confidence + oa.confidence) / 2),
            reason := m.reason ++ " | AI: " ++ oa.reason }
        else if oa.confidence > m.confidence then
          { state := oa.state
            confidence := oa.confidence * 0.7 + m.confidence * 0.3,
            reason := "AI: " ++ oa.reason ++ " (MediaPipe: " ++ m.reason ++ ")" }
        else
          { state := m.state
            confidence := m.confidence * 0.7 + oa.confidence * 0.3,
            reason := m.reason ++ " (AI: " ++ oa.reason ++ ")" }
      | none =>
          { state := m.state, confidence := m.confidence, reason := m.reason }

/-- Session statistics; `SessionStats` in focusStore.ts.  Times are in
milliseconds. -/
structure SessionStats where
  startTime : Nat
  totalFocusedTime : Nat
  totalDistractedTime : Nat
  distractionCount : Nat
deriving DecidableEq, Repr

/-- `initialSessionStats` in focusStore.ts. -/
def initialSessionStats : SessionStats :=
  { startTime := 0, totalFocusedTime := 0, totalDistractedTime := 0,
    distractionCount := 0 }

/-- The state fields of the zustand store in focusStore.ts.  Timestamps
are `Option Nat` (JS `number | null`); `Nat` subtraction is adequate
because the store only compares time differences against positive
thresholds, for which JS negative differences and truncated-to-zero `Nat`
differences behave identically. -/
structure FocusStore where
  focusState : FocusState
  focusReason : String
  isSessionActive : Bool
  sessionStats : SessionStats
  escalationLevel : Nat
  distractionStartTime : Option Nat
  lastEscalationTime : Option Nat
  lastInterventionTime : Option Nat
  focusedSinceReset : Option Nat
  pendingMessage : Option String
deriving DecidableEq, Repr

/-- JavaScript truthiness of a `number | null` value: `null` and `0` are
falsy, every other timestamp is truthy. -/
def truthy : Option Nat → Bool
  | none => false
  | some n => n != 0

/-- The store's initial state (focusStore.ts lines 52-62). -/
def initialStore : FocusStore :=
  { focusState := FocusState.unknown, focusReason := "Session not started",
    isSessionActive := false, sessionStats := initialSessionStats,
    escalationLevel := 0, distractionStartTime := none,
    lastEscalationTime := none, lastInterventionTime := none,
    focusedSinceReset := none, pendingMessage := none }

/-- `startSession` action (focusStore.ts lines 64-80); `now` is the
`Date.now()` read. -/
def startSession (now : Nat) (st : FocusStore) : FocusStore :=
  { st with
    isSessionActive := true, focusState := FocusState.unknown,
    focusReason := "Detecting focus...",
    sessionStats := { initialSessionStats with startTime := now },
    escalationLevel := 0, distractionStartTime := none,
    lastEscalationTime := none, lastInterventionTime := none,
    focusedSinceReset := none, pendingMessage := none }

/-- `endSession` action (focusStore.ts lines 82-91). -/
def endSession (st : FocusStore) : FocusStore :=
  { st with
    isSessionActive := false, focusState := FocusState.unknown,
    focusReason := "Session ended", escalationLevel := 0,
    distractionStartTime := none, pendingMessage := none }

/-- `updateFocusState` action (focusStore.ts lines 93-139), including the
stats bookkeeping and the three transition branches. -/
def updateFocusState (newState : FocusState) (reason : String) (now : Nat)
    (st : FocusStore) : FocusStore :=
  let timeSinceLastUpdate :=
    if truthy st.distractionStartTime then now - st.distractionStartTime.getD 0
    else 0
  let updatedStats :=
    if st.isSessionActive = true ∧ st.focusState ≠ FocusState.unknown ∧
        st.focusState = FocusState.distracted ∧ timeSinceLastUpdate > 0 then
      { st.sessionStats with
        totalDistractedTime := st.sessionStats.totalDistractedTime +
          timeSinceLastUpdate }
    else st.sessionStats
  if newState = FocusState.distracted ∧ st.focusState ≠ FocusState.distracted then
    { st with
      focusState := newState, focusReason := reason,
      sessionStats := { updatedStats with
        distractionCount := updatedStats.distractionCount + 1 },
      distractionStartTime := some now, focusedSinceReset := none }
  else if newState = FocusState.focused ∧ st.focusState ≠ FocusState.focused then
    { st with
      focusState := newState, focusReason := reason,
      sessionStats := updatedStats,
      focusedSinceReset := (st.focusedSinceReset).orElse (fun _ => some now) }
  else
    { st with focusState := newState, focusReason := reason }

/-- `escalate` action (focusStore.ts lines 141-150). -/
def escalate (now : Nat) (st : FocusStore) : FocusStore :=
  { st with
    escalationLevel := min (st.escalationLevel + 1) 3,
    lastEscalationTime := some now, lastInterventionTime := some now }

/-- `resetEscalation` action (focusStore.ts lines 152-160). -/
def resetEscalation (st : FocusStore) : FocusStore :=
  { st with
    escalationLevel := 0, distractionStartTime := none,
    lastEscalationTime := none, focusedSinceReset := none,
    pendingMessage := none }

/-- `setPendingMessage` action (focusStore.ts lines 162-164). -/
def setPendingMessage (message : Option String) (st : FocusStore) : FocusStore :=
  { st with pendingMessage := message }

/-- `dismissIntervention` action (focusStore.ts lines 166-171). -/
def dismissIntervention (now : Nat) (st : FocusStore) : FocusStore :=
  { st with pendingMessage := none, lastInterventionTime := some now }

end Focal

/-- C2: with no face detected, the classifier returns Idle with
confidence exactly 1 when no oracle verdict is present, and when an
oracle verdict with confidence above 0.8 and state Focused is present it
returns Focused with the oracle confidence scaled by 0.7. -/
theorem c2_no_face_idle_or_oracle_rescue (input : Focal.FocusClassifierInput)
    (hface : input.faceDetected = false) :
    (input.overshootAnalysis = none →
      Focal.classifyFocusState input =
        { state := Focal.FocusState.idle, confidence := 1
          reason := "No face detected in frame" }) ∧
    (∀ oa, input.overshootAnalysis = some oa → oa.confidence > 0.8 →
      oa.state = Focal.FocusState.focused →
      (Focal.classifyFocusState input).state = Focal.FocusState.focused ∧
      (Focal.classifyFocusState input).confidence = oa.confidence * 0.7) := by
  constructor
  · intro hnone
    simp [Focal.classifyFocusState, hface, hnone]
  · intro oa hsome hconf hstate
    simp [Focal.classifyFocusState, hface, hsome, hconf, hstate]

/-- Concrete classifier input with no face detected and no oracle verdict. -/
def noFaceInput : Focal.FocusClassifierInput :=
  { faceDetected := false, headPose := none, eyesOpen := true,
    confidence := 0.9, overshootAnalysis := none }

/-- Witness for C2 at a concrete input with no face and no oracle. -/
theorem c2_no_face_idle_or_oracle_rescue_witness :
    noFaceInput.faceDetected = false ∧
    ((noFaceInput.overshootAnalysis = none →
      Focal.classifyFocusState noFaceInput =
        { state := Focal.FocusState.idle, confidence := 1,
          reason := "No face detected in frame" }) ∧
    (∀ oa, noFaceInput.overshootAnalysis = some oa → oa.confidence > 0.8 →
      oa.state = Focal.FocusState.focused →
      (Focal.classifyFocusState noFaceInput).state = Focal.FocusState.focused ∧
      (Focal.classifyFocusState noFaceInput).confidence = oa.confidence * 0.7)) :=
  ⟨rfl, c2_no_face_idle_or_oracle_rescue noFaceInput rfl⟩

namespace Focal

/-- One external mutation of the store, tagged by which zustand action it
invokes (every action that a running session can perform). -/
inductive StoreAction where
  | update (newState : FocusState) (reason : String)
  | doEscalate
  | doReset
  | setMessage (m : Option String)
  | dismiss
  | stop
deriving Repr

/-- Dispatch one store action at JS time `now`. -/
def applyAction (a : StoreAction) (now : Nat) (st : FocusStore) : FocusStore :=
  match a with
  | StoreAction.update s r => updateFocusState s r now st
  | StoreAction.doEscalate => escalate now st
  | StoreAction.doReset => resetEscalation st
  | StoreAction.setMessage m => setPendingMessage m st
  | StoreAction.dismiss => dismissIntervention now st
  | StoreAction.stop => endSession st

/-- Fold a timestamped action sequence over the store. -/
def applyActions : List (StoreAction × Nat) → FocusStore → FocusStore
  | [], st => st
  | (a, t) :: rest, st => applyActions rest (applyAction a t st)

/-- No single store action changes `totalFocusedTime`. -/
theorem applyAction_totalFocusedTime (a : StoreAction) (now : Nat)
    (st : FocusStore) :
    (applyAction a now st).sessionStats.totalFocusedTime =
      st.sessionStats.totalFocusedTime := by
  cases a with
  | update s r =>
    simp only [applyAction, updateFocusState]
    split_ifs <;> simp
  | doEscalate => rfl
  | doReset => rfl
  | setMessage m => rfl
  | dismiss => rfl
  | stop => rfl

end Focal

/-- C9: `dismissIntervention` clears `pendingMessage` and changes none of
`escalationLevel`, `distractionStartTime`, `lastEscalationTime`,
`focusedSinceReset`, `sessionStats`. -/
theorem c9_dismiss_clears_only_pending_message (st : Focal.FocusStore)
    (now : Nat) :
    (Focal.dismissIntervention now st).pendingMessage = none ∧
    (Focal.dismissIntervention now st).escalationLevel = st.escalationLevel ∧
    (Focal.dismissIntervention now st).distractionStartTime =
      st.distractionStartTime ∧
    (Focal.dismissIntervention now st).lastEscalationTime =
      st.lastEscalationTime ∧
    (Focal.dismissIntervention now st).focusedSinceReset =
      st.focusedSinceReset ∧
    (Focal.dismissIntervention now st).sessionStats = st.sessionStats :=
  ⟨rfl, rfl, rfl, rfl, rfl, rfl⟩

/-- C10: `totalFocusedTime` is initialized to 0 by `startSession` and no
sequence of store actions ever increases it — it stays 0 for the whole
session. -/
theorem c10_total_focused_time_never_accumulated (t0 : Nat)
    (st : Focal.FocusStore) (acts : List (Focal.StoreAction × Nat)) :
    (Focal.applyActions acts
        (Focal.startSession t0 st)).sessionStats.totalFocusedTime = 0 := by
  have hzero : (Focal.startSession t0 st).sessionStats.totalFocusedTime = 0 := rfl
  have main : ∀ (l : List (Focal.StoreAction × Nat)) (s : Focal.FocusStore),
      s.sessionStats.totalFocusedTime = 0 →
      (Focal.applyActions l s).sessionStats.totalFocusedTime = 0 := by
    intro l
    induction l with
    | nil => intro s hs; exact hs
    | cons p rest ih =>
      intro s hs
      obtain ⟨a, t⟩ := p
      have := Focal.applyAction_totalFocusedTime a t s
      exact ih _ (this.trans hs)
  exact main acts _ hzero

namespace Focal

/-- `ESCALATION_THRESHOLDS.LEVEL_1_DELAY` (focusStore.ts): 5s distracted
raises level 0 to 1. -/
def LEVEL_1_DELAY : Nat := 5000

/-- `ESCALATION_THRESHOLDS.LEVEL_2_DELAY` (focusStore.ts): 10s after
level 1 raises to level 2. -/
def LEVEL_2_DELAY : Nat := 10000

/-- `ESCALATION_THRESHOLDS.LEVEL_3_DELAY` (focusStore.ts): 15s after
level 2 raises to level 3. -/
def LEVEL_3_DELAY : Nat := 15000

/-- `ESCALATION_THRESHOLDS.RESET_FOCUS_TIME` (focusStore.ts): 30s focused
resets escalation. -/
def RESET_FOCUS_TIME : Nat := 30000

/-- `MAX_ESCALATION_LEVEL` in useEscalation.ts. -/
def MAX_ESCALATION_LEVEL : Nat := 3

/-- Return value of `determineEscalationLevel` in useEscalation.ts. -/
structure EscalationDecision where
  shouldEscalate : Bool
  newLevel : Nat
deriving DecidableEq, Repr

/-- `determineEscalationLevel` in useEscalation.ts, case for case. -/
def determineEscalationLevel (currentLevel distractionDuration
    timeSinceLastEscalation : Nat) : EscalationDecision :=
  if currentLevel = 0 ∧ distractionDuration ≥ LEVEL_1_DELAY then
    { shouldEscalate := true, newLevel := 1 }
  else if currentLevel = 1 ∧ timeSinceLastEscalation ≥ LEVEL_2_DELAY then
    { shouldEscalate := true, newLevel := 2 }
  else if currentLevel = 2 ∧ timeSinceLastEscalation ≥ LEVEL_3_DELAY then
    { shouldEscalate := true, newLevel := MAX_ESCALATION_LEVEL }
  else
    { shouldEscalate := false, newLevel := currentLevel }

/-- `PromptContext` in promptTemplates.ts (`distractionDuration` is in
seconds). -/
structure PromptContext where
  focusState : FocusState
  reason : String
  distractionDuration : ℚ
  escalationLevel : Nat
  distractionCount : Nat
deriving DecidableEq, Repr

/-- `FALLBACK_MESSAGES` in promptTemplates.ts: the static per-level
fallback pool (`Record<number, string[]>` with keys 1, 2, 3). -/
def FALLBACK_MESSAGES (level : Nat) : Option (List String) :=
  if level = 1 then some
      ["Hey! Eyes on the prize. 👀",
       "I saw that. Get back to work.",
       "Focus check! You\x27ve got this.",
       "Wandering eyes detected. Refocus!"]
  else if level = 2 then some
      ["Okay, this is the SECOND time. I\x27m watching you. Your future self is judging.",
       "Still distracted? Bold strategy. Let\x27s see if it pays off. (Spoiler: it won\x27t)",
       "I can\x27t believe you\x27re making me repeat myself. Your goals called—they\x27re disappointed."]
  else if level = 3 then some
      ["Alright, I tried being nice. You\x27re currently speedrunning failure. The McDonald\x27s application is literally one tab away. Is that where we\x27re headed?",
       "Three strikes. Your dreams are actively walking out the door. That break you want? You haven\x27t earned it. Get. Back. To. Work.",
       "This is your FINAL warning before I go full disappointed parent mode. You had goals. Remember those? They remember you abandoning them right now."]
  else none

/-- `getRandomFallbackMessage` in promptTemplates.ts.  The call
`Math.floor(Math.random() * messages.length)` yields an arbitrary index
below `messages.length`; it is modelled by the extra `draw` argument
reduced modulo the pool size. -/
def getRandomFallbackMessage (level : Nat) (draw : Nat) : String :=
  let messages := (FALLBACK_MESSAGES level).getD ((FALLBACK_MESSAGES 1).getD [])
  messages.getD (draw % messages.length) ""

/-- Behavior of the external Gemini text-generation service for one
call, as distinguished by gemini.ts: client never initialized, the
request throws, or the service responds with some text. -/
inductive GeminiEnv where
  | notInitialized
  | svcError
  | svcResponse (text : String)
deriving DecidableEq, Repr

/-- The quote-stripping cleanup in gemini.ts lines 63-66
(`startsWith('"') && endsWith('"')` then `slice(1, -1)`). -/
def stripWrappingQuotes (s : String) : String :=
  let l := s.toList
  if l.head? = some '\"' ∧ l.getLast? = some '\"' then
    String.mk ((l.drop 1).dropLast)
  else s

/-- `generateInterventionMessage` in gemini.ts: fallback when the client
is not initialized, fallback when the request errors or the response
text is empty after trimming, otherwise the trimmed response with
wrapping quotes removed. -/
def generateInterventionMessage (env : GeminiEnv) (draw : Nat)
    (ctx : PromptContext) : String :=
  match env with
  | GeminiEnv.notInitialized => getRandomFallbackMessage ctx.escalationLevel draw
  | GeminiEnv.svcError => getRandomFallbackMessage ctx.escalationLevel draw
  | GeminiEnv.svcResponse text =>
    if text.trim.length = 0 then getRandomFallbackMessage ctx.escalationLevel draw
    else stripWrappingQuotes text.trim

/-- Outcome of the awaited `generateInterventionMessage(...)` call seen
by the `try`/`catch` in `checkEscalation` (useEscalation.ts): either the
promise resolves with the function's value, or the await itself rejects
and the `catch` arm runs. -/
inductive PollGen where
  | call (env : GeminiEnv)
  | throws
deriving DecidableEq, Repr

/-- The `distractionDuration` binding of `checkEscalation`
(useEscalation.ts): `now - distractionStartTime`. -/
def distractionDurationOf (now : Nat) (st : FocusStore) : Nat :=
  now - st.distractionStartTime.getD 0

/-- The `timeSinceLastEscalation` binding of `checkEscalation`:
`lastEscalationTime ? now - lastEscalationTime : distractionDuration`. -/
def timeSinceLastEscalationOf (now : Nat) (st : FocusStore) : Nat :=
  if truthy st.lastEscalationTime = true then now - st.lastEscalationTime.getD 0
  else distractionDurationOf now st

/-- The `determineEscalationLevel` call made by `checkEscalation`. -/
def escalationDecisionOf (now : Nat) (st : FocusStore) : EscalationDecision :=
  determineEscalationLevel st.escalationLevel (distractionDurationOf now st)
    (timeSinceLastEscalationOf now st)

/-- The `PromptContext` handed to `generateInterventionMessage` by
`checkEscalation` (duration converted to seconds). -/
def promptContextOf (now : Nat) (st : FocusStore) (newLevel : Nat) :
    PromptContext :=
  { focusState := st.focusState, reason := st.focusReason,
    distractionDuration := (distractionDurationOf now st : ℚ) / 1000,
    escalationLevel := newLevel,
    distractionCount := st.sessionStats.distractionCount }

/-- The `try { ... setPendingMessage; escalate } catch { escalate }` body
of `checkEscalation` once an escalation has been decided. -/
def runEscalationStep (g : PollGen) (draw : Nat) (now : Nat)
    (st : FocusStore) : FocusStore :=
  match g with
  | PollGen.call env =>
    escalate now (setPendingMessage
      (some (generateInterventionMessage env draw
        (promptContextOf now st (escalationDecisionOf now st).newLevel))) st)
  | PollGen.throws => escalate now st

/-- `checkEscalation` of useEscalation.ts as a pure transition on the
store state at JS time `now`.  The `isGeneratingRef` reentrancy guard is
a no-op here because polls are modelled as sequential. -/
def checkEscalation (g : PollGen) (draw : Nat) (now : Nat)
    (st : FocusStore) : FocusStore :=
  if st.isSessionActive = false then st
  else if st.focusState = FocusState.focused ∧
      truthy st.focusedSinceReset = true ∧
      now - st.focusedSinceReset.getD 0 ≥ RESET_FOCUS_TIME ∧
      st.escalationLevel > 0 then
    resetEscalation st
  else if st.focusState ≠ FocusState.distracted ∨
      truthy st.distractionStartTime = false then st
  else if (escalationDecisionOf now st).shouldEscalate = true ∧
      (escalationDecisionOf now st).newLevel > st.escalationLevel then
    runEscalationStep g draw now st
  else st

/-- When the sustained-focus reset condition holds (with a truthy, i.e.
nonzero, `focusedSinceReset`), the poll performs exactly
`resetEscalation`. -/
theorem checkEscalation_resets (g : PollGen) (draw now f : Nat)
    (st : FocusStore) (hact : st.isSessionActive = true)
    (hfoc : st.focusState = FocusState.focused)
    (hfsr : st.focusedSinceReset = some f) (hf0 : f ≠ 0)
    (hdur : RESET_FOCUS_TIME ≤ now - f) (hlvl : 0 < st.escalationLevel) :
    checkEscalation g draw now st = resetEscalation st := by
  have hcond : st.focusState = FocusState.focused ∧
      truthy st.focusedSinceReset = true ∧
      now - st.focusedSinceReset.getD 0 ≥ RESET_FOCUS_TIME ∧
      st.escalationLevel > 0 := by
    refine ⟨hfoc, ?_, ?_, hlvl⟩
    · simp [truthy, hfsr, hf0]
    · simpa [hfsr] using hdur
  rw [checkEscalation, if_neg (by simp [hact] : ¬st.isSessionActive = false),
    if_pos hcond]

/-- While Focused, a poll strictly before the 30s sustained-focus
boundary leaves the store untouched. -/
theorem checkEscalation_focused_early (g : PollGen) (draw now : Nat)
    (st : FocusStore) (hfoc : st.focusState = FocusState.focused)
    (hearly : now - st.focusedSinceReset.getD 0 < RESET_FOCUS_TIME) :
    checkEscalation g draw now st = st := by
  by_cases hact : st.isSessionActive = false
  · rw [checkEscalation, if_pos hact]
  · rw [checkEscalation, if_neg hact,
      if_neg (fun hc => absurd hc.2.2.1 (not_le.mpr hearly)),
      if_pos (Or.inl (show st.focusState ≠ FocusState.distracted by
        rw [hfoc]; exact fun h => by cases h))]

/-- `updateFocusState` always installs the new classifier state. -/
theorem updateFocusState_focusState (s : FocusState) (r : String)
    (now : Nat) (st : FocusStore) :
    (updateFocusState s r now st).focusState = s := by
  cases st with
  | mk fs fr act stats lvl dst lest lint fsr pm => cases s <;> cases fs <;> rfl

/-- `updateFocusState` never touches the escalation level. -/
theorem updateFocusState_escalationLevel (s : FocusState) (r : String)
    (now : Nat) (st : FocusStore) :
    (updateFocusState s r now st).escalationLevel = st.escalationLevel := by
  cases st with
  | mk fs fr act stats lvl dst lest lint fsr pm => cases s <;> cases fs <;> rfl

/-- `updateFocusState` never touches the session-active flag. -/
theorem updateFocusState_isSessionActive (s : FocusState) (r : String)
    (now : Nat) (st : FocusStore) :
    (updateFocusState s r now st).isSessionActive = st.isSessionActive := by
  cases st with
  | mk fs fr act stats lvl dst lest lint fsr pm => cases s <;> cases fs <;> rfl

/-- Effect of a Focused verdict on `focusedSinceReset`: kept as is while
already Focused, and `?? now` (set only if unset) when entering Focused. -/
theorem updateFocusState_focusedSinceReset_focused (r : String) (now : Nat)
    (st : FocusStore) :
    (updateFocusState FocusState.focused r now st).focusedSinceReset =
      if st.focusState = FocusState.focused then st.focusedSinceReset
      else st.focusedSinceReset.orElse fun _ => some now := by
  cases st with
  | mk fs fr act stats lvl dst lest lint fsr pm => cases fs <;> rfl

end Focal

/-- C4 counterexample: a state with level 1, classifier state Focused and
`focusedSinceReset = 0` at `now = 30000` satisfies the claim's
hypotheses (`now - focusedSinceTime ≥ 30s`, level > 0) yet the poll does
not reset, because JavaScript treats the timestamp 0 as falsy in
`focusState === 'focused' && focusedSinceReset`. -/
theorem c4_reset_counterexample :
    (Focal.checkEscalation (Focal.PollGen.call Focal.GeminiEnv.notInitialized) 0
      30000
      { Focal.initialStore with
        isSessionActive := true, focusState := Focal.FocusState.focused,
        focusedSinceReset := some 0,
        escalationLevel := 1 }).escalationLevel = 1 := by
  rfl

/-- C4 (amended): at a poll during an active session, if the classifier
state is Focused, `focusedSinceTime` is set to a nonzero timestamp `f`
with `now - f ≥ 30s`, and the level is positive, then the reset rule
fires: the level becomes 0 and `distractionStartTime`,
`lastEscalationTime`, `focusedSinceReset` and `pendingMessage` are all
cleared. -/
theorem c4_sustained_focus_reset (g : Focal.PollGen) (draw now f : Nat)
    (st : Focal.FocusStore) (hact : st.isSessionActive = true)
    (hfoc : st.focusState = Focal.FocusState.focused)
    (hfsr : st.focusedSinceReset = some f) (hf0 : f ≠ 0)
    (hdur : Focal.RESET_FOCUS_TIME ≤ now - f)
    (hlvl : 0 < st.escalationLevel) :
    (Focal.checkEscalation g draw now st).escalationLevel = 0 ∧
    (Focal.checkEscalation g draw now st).distractionStartTime = none ∧
    (Focal.checkEscalation g draw now st).lastEscalationTime = none ∧
    (Focal.checkEscalation g draw now st).focusedSinceReset = none ∧
    (Focal.checkEscalation g draw now st).pendingMessage = none := by
  rw [Focal.checkEscalation_resets g draw now f st hact hfoc hfsr hf0 hdur hlvl]
  exact ⟨rfl, rfl, rfl, rfl, rfl⟩

/-- Witness for C4 at a concrete store state. -/
theorem c4_sustained_focus_reset_witness :
    ({ Focal.initialStore with
        isSessionActive := true, focusState := Focal.FocusState.focused,
        focusedSinceReset := some 1000,
        escalationLevel := 2 } : Focal.FocusStore).isSessionActive = true ∧
    (Focal.checkEscalation Focal.PollGen.throws 0 31000
      { Focal.initialStore with
        isSessionActive := true, focusState := Focal.FocusState.focused,
        focusedSinceReset := some 1000,
        escalationLevel := 2 }).escalationLevel = 0 ∧
    (Focal.checkEscalation Focal.PollGen.throws 0 31000
      { Focal.initialStore with
        isSessionActive := true, focusState := Focal.FocusState.focused,
        focusedSinceReset := some 1000,
        escalationLevel := 2 }).distractionStartTime = none ∧
    (Focal.checkEscalation Focal.PollGen.throws 0 31000
      { Focal.initialStore with
        isSessionActive := true, focusState := Focal.FocusState.focused,
        focusedSinceReset := some 1000,
        escalationLevel := 2 }).lastEscalationTime = none ∧
    (Focal.checkEscalation Focal.PollGen.throws 0 31000
      { Focal.initialStore with
        isSessionActive := true, focusState := Focal.FocusState.focused,
        focusedSinceReset := some 1000,
        escalationLevel := 2 }).focusedSinceReset = none ∧
    (Focal.checkEscalation Focal.PollGen.throws 0 31000
      { Focal.initialStore with
        isSessionActive := true, focusState := Focal.FocusState.focused,
        focusedSinceReset := some 1000,
        escalationLevel := 2 }).pendingMessage = none :=
  ⟨rfl, c4_sustained_focus_reset Focal.PollGen.throws 0 31000 1000 _ rfl rfl rfl
    (by decide) (by decide) (by decide)⟩


/-- C6 (amended): entering Focused is idempotent on `focusedSinceReset`:
(a) a Focused update never overwrites an already-set `focusedSinceReset`;
(b) a repeated Focused verdict (state already Focused) leaves it
unchanged; (c) after a first Focused verdict at a nonzero timestamp `t1`
(JavaScript treats timestamp 0 as absent) and a later one at `t2`,
`focusedSinceReset` is still `t1`, the sustained-focus reset fires at the
poll at `t1 + 30s`, and every poll strictly before `t1 + 30s` leaves the
store untouched — the reset is timed from the first verdict, not a later
one. -/
theorem c6_focused_since_idempotent :
    (∀ (st : Focal.FocusStore) (r : String) (now t : Nat),
      st.focusedSinceReset = some t →
      (Focal.updateFocusState Focal.FocusState.focused r now
        st).focusedSinceReset = some t) ∧
    (∀ (st : Focal.FocusStore) (r : String) (now : Nat),
      st.focusState = Focal.FocusState.focused →
      (Focal.updateFocusState Focal.FocusState.focused r now
        st).focusedSinceReset = st.focusedSinceReset) ∧
    (∀ (st : Focal.FocusStore) (r1 r2 : String) (t1 t2 : Nat)
      (g : Focal.PollGen) (draw : Nat),
      st.focusedSinceReset = none →
      st.focusState ≠ Focal.FocusState.focused →
      st.isSessionActive = true → 0 < st.escalationLevel → t1 ≠ 0 →
      (Focal.updateFocusState Focal.FocusState.focused r1 t1
          st).focusedSinceReset = some t1 ∧
      (Focal.updateFocusState Focal.FocusState.focused r2 t2
          (Focal.updateFocusState Focal.FocusState.focused r1 t1
            st)).focusedSinceReset = some t1 ∧
      (Focal.checkEscalation g draw (t1 + Focal.RESET_FOCUS_TIME)
          (Focal.updateFocusState Focal.FocusState.focused r2 t2
            (Focal.updateFocusState Focal.FocusState.focused r1 t1
              st))).escalationLevel = 0 ∧
      (∀ now, now < t1 + Focal.RESET_FOCUS_TIME →
        Focal.checkEscalation g draw now
          (Focal.updateFocusState Focal.FocusState.focused r2 t2
            (Focal.updateFocusState Focal.FocusState.focused r1 t1 st)) =
          Focal.updateFocusState Focal.FocusState.focused r2 t2
            (Focal.updateFocusState Focal.FocusState.focused r1 t1 st))) := by
  refine ⟨?_, ?_, ?_⟩
  · intro st r now t ht
    rw [Focal.updateFocusState_focusedSinceReset_focused]
    split_ifs with h
    · exact ht
    · rw [ht]; rfl
  · intro st r now hfoc
    rw [Focal.updateFocusState_focusedSinceReset_focused, if_pos hfoc]
  · intro st r1 r2 t1 t2 g draw hnone hnf hact hlvl ht1
    have h1 : (Focal.updateFocusState Focal.FocusState.focused r1 t1
        st).focusedSinceReset = some t1 := by
      rw [Focal.updateFocusState_focusedSinceReset_focused, if_neg hnf, hnone]
      rfl
    have hfs1 : (Focal.updateFocusState Focal.FocusState.focused r1 t1
        st).focusState = Focal.FocusState.focused :=
      Focal.updateFocusState_focusState _ r1 t1 st
    have h2 : (Focal.updateFocusState Focal.FocusState.focused r2 t2
        (Focal.updateFocusState Focal.FocusState.focused r1 t1
          st)).focusedSinceReset = some t1 := by
      rw [Focal.updateFocusState_focusedSinceReset_focused, if_pos hfs1, h1]
    have hfs2 : (Focal.updateFocusState Focal.FocusState.focused r2 t2
        (Focal.updateFocusState Focal.FocusState.focused r1 t1
          st)).focusState = Focal.FocusState.focused :=
      Focal.updateFocusState_focusState _ r2 t2 _
    have hact2 : (Focal.updateFocusState Focal.FocusState.focused r2 t2
        (Focal.updateFocusState Focal.FocusState.focused r1 t1
          st)).isSessionActive = true := by
      rw [Focal.updateFocusState_isSessionActive,
        Focal.updateFocusState_isSessionActive]
      exact hact
    have hlvl2 : 0 < (Focal.updateFocusState Focal.FocusState.focused r2 t2
        (Focal.updateFocusState Focal.FocusState.focused r1 t1
          st)).escalationLevel := by
      rw [Focal.updateFocusState_escalationLevel,
        Focal.updateFocusState_escalationLevel]
      exact hlvl
    have h30 : Focal.RESET_FOCUS_TIME = 30000 := rfl
    refine ⟨h1, h2, ?_, ?_⟩
    · rw [Focal.checkEscalation_resets g draw (t1 + Focal.RESET_FOCUS_TIME) t1 _
        hact2 hfs2 h2 ht1 (by omega) hlvl2]
      rfl
    · intro now hnow
      refine Focal.checkEscalation_focused_early g draw now _ hfs2 ?_
      rw [h2]
      show now - t1 < Focal.RESET_FOCUS_TIME
      omega

/-- Concrete pre-state for the C6 scenario: an active session, currently
Distracted at level 1, with no focus timer running. -/
def c6Base : Focal.FocusStore :=
  { Focal.initialStore with
    isSessionActive := true, focusState := Focal.FocusState.distracted,
    escalationLevel := 1 }

/-- C6 counterexample: if the first Focused verdict arrives at the
timestamp 0 exactly, `focusedSinceReset` is set to 0 (the `?? now`
nullish check keeps it), but the sustained-focus reset never fires,
because the poll's `focusState === 'focused' && focusedSinceReset` guard
treats the timestamp 0 as falsy: 30 s after the first Focused verdict the
level is still 1, not 0 as the claim requires. -/
theorem c6_focused_since_counterexample :
    (Focal.updateFocusState Focal.FocusState.focused "back" 0
      c6Base).focusedSinceReset = some 0 ∧
    (Focal.checkEscalation Focal.PollGen.throws 0
      (0 + Focal.RESET_FOCUS_TIME)
      (Focal.updateFocusState Focal.FocusState.focused "back" 0
        c6Base)).escalationLevel = 1 ∧
    (Focal.checkEscalation Focal.PollGen.throws 0
      (0 + Focal.RESET_FOCUS_TIME)
      (Focal.updateFocusState Focal.FocusState.focused "back" 0
        c6Base)).escalationLevel ≠ 0 := by
  refine ⟨rfl, rfl, ?_⟩
  decide

/-- Witness for C6 at a concrete two-verdict trace. -/
theorem c6_focused_since_idempotent_witness :
    c6Base.focusedSinceReset = none ∧
    c6Base.focusState ≠ Focal.FocusState.focused ∧
    ((Focal.updateFocusState Focal.FocusState.focused "back" 100
        c6Base).focusedSinceReset = some 100 ∧
      (Focal.updateFocusState Focal.FocusState.focused "still" 600
          (Focal.updateFocusState Focal.FocusState.focused "back" 100
            c6Base)).focusedSinceReset = some 100 ∧
      (Focal.checkEscalation Focal.PollGen.throws 0
          (100 + Focal.RESET_FOCUS_TIME)
          (Focal.updateFocusState Focal.FocusState.focused "still" 600
            (Focal.updateFocusState Focal.FocusState.focused "back" 100
              c6Base))).escalationLevel = 0 ∧
      (∀ now, now < 100 + Focal.RESET_FOCUS_TIME →
        Focal.checkEscalation Focal.PollGen.throws 0 now
          (Focal.updateFocusState Focal.FocusState.focused "still" 600
            (Focal.updateFocusState Focal.FocusState.focused "back" 100
              c6Base)) =
          Focal.updateFocusState Focal.FocusState.focused "still" 600
            (Focal.updateFocusState Focal.FocusState.focused "back" 100
              c6Base))) :=
  ⟨rfl, by decide,
    c6_focused_since_idempotent.2.2 c6Base "back" "still" 100 600
      Focal.PollGen.throws 0 rfl (by decide) rfl (by decide) (by decide)⟩

namespace Focal

/-- The pool actually drawn from by `getRandomFallbackMessage`:
`FALLBACK_MESSAGES[level] || FALLBACK_MESSAGES[1]`. -/
def fallbackPoolOf (level : Nat) : List String :=
  (FALLBACK_MESSAGES level).getD ((FALLBACK_MESSAGES 1).getD [])

/-- Every level's fallback pool is non-empty. -/
theorem fallbackPoolOf_ne_nil (level : Nat) : fallbackPoolOf level ≠ [] := by
  unfold fallbackPoolOf FALLBACK_MESSAGES
  split_ifs <;> first | decide | simp_all

/-- `getRandomFallbackMessage` unfolded through `fallbackPoolOf`. -/
theorem getRandomFallbackMessage_eq (level draw : Nat) :
    getRandomFallbackMessage level draw =
      (fallbackPoolOf level).getD (draw % (fallbackPoolOf level).length) "" :=
  rfl

/-- The fallback message always comes from the level's static pool. -/
theorem getRandomFallbackMessage_mem (level draw : Nat) :
    getRandomFallbackMessage level draw ∈ fallbackPoolOf level := by
  have hlen : 0 < (fallbackPoolOf level).length :=
    List.length_pos.mpr (fallbackPoolOf_ne_nil level)
  have hidx : draw % (fallbackPoolOf level).length <
      (fallbackPoolOf level).length := Nat.mod_lt _ hlen
  rw [getRandomFallbackMessage_eq, List.getD_eq_getElem _ _ hidx]
  exact List.getElem_mem hidx

set_option maxRecDepth 4000 in
/-- The fallback message is never the empty string. -/
theorem getRandomFallbackMessage_length_pos (level draw : Nat) :
    0 < (getRandomFallbackMessage level draw).length := by
  have hall : ∀ s ∈ fallbackPoolOf level, 0 < s.length := by
    unfold fallbackPoolOf FALLBACK_MESSAGES
    split_ifs <;> decide
  exact hall _ (getRandomFallbackMessage_mem level draw)

/-- When `determineEscalationLevel` decides to escalate, the new level is
exactly the current level plus one (and the current level is below 3). -/
theorem escalationDecisionOf_spec (now : Nat) (st : FocusStore)
    (h : (escalationDecisionOf now st).shouldEscalate = true) :
    (escalationDecisionOf now st).newLevel = st.escalationLevel + 1 ∧
      st.escalationLevel < 3 := by
  unfold escalationDecisionOf determineEscalationLevel at h ⊢
  split_ifs at h ⊢ with h1 h2 h3
  · exact ⟨by rw [h1.1], by rw [h1.1]; omega⟩
  · exact ⟨by rw [h2.1], by rw [h2.1]; omega⟩
  · exact ⟨by rw [h3.1]; rfl, by rw [h3.1]; omega⟩

/-- In a distracted state with an escalation due, the poll runs the
escalation step (message generation plus `escalate`). -/
theorem checkEscalation_escalates (g : PollGen) (draw now : Nat)
    (st : FocusStore) (hact : st.isSessionActive = true)
    (hdis : st.focusState = FocusState.distracted)
    (hdst : truthy st.distractionStartTime = true)
    (hs : (escalationDecisionOf now st).shouldEscalate = true)
    (hgt : (escalationDecisionOf now st).newLevel > st.escalationLevel) :
    checkEscalation g draw now st = runEscalationStep g draw now st := by
  rw [checkEscalation, if_neg (by simp [hact] : ¬st.isSessionActive = false),
    if_neg (fun hc => absurd (hdis.symm.trans hc.1)
      (by decide : ¬(FocusState.distracted = FocusState.focused))),
    if_neg (fun hc => hc.elim (fun h1 => h1 hdis)
      (fun h2 => absurd (hdst.symm.trans h2) (by decide))),
    if_pos ⟨hs, hgt⟩]

end Focal

/-- C3 counterexample: two polls in the identical store state, both
escalating to level 1 with the generation client uninitialized, store two
different pending messages depending only on the random draw — so the
fallback message is not deterministic and not keyed only by the new
level (promptTemplates.ts picks a random member of the level's pool). -/
theorem c3_fallback_counterexample :
    (Focal.checkEscalation (Focal.PollGen.call Focal.GeminiEnv.notInitialized)
        0 5500
        { Focal.initialStore with
          isSessionActive := true, focusState := Focal.FocusState.distracted,
          distractionStartTime := some 500 }).escalationLevel =
      (Focal.checkEscalation (Focal.PollGen.call Focal.GeminiEnv.notInitialized)
        1 5500
        { Focal.initialStore with
          isSessionActive := true, focusState := Focal.FocusState.distracted,
          distractionStartTime := some 500 }).escalationLevel ∧
    (Focal.checkEscalation (Focal.PollGen.call Focal.GeminiEnv.notInitialized)
        0 5500
        { Focal.initialStore with
          isSessionActive := true, focusState := Focal.FocusState.distracted,
          distractionStartTime := some 500 }).pendingMessage ≠
      (Focal.checkEscalation (Focal.PollGen.call Focal.GeminiEnv.notInitialized)
        1 5500
        { Focal.initialStore with
          isSessionActive := true, focusState := Focal.FocusState.distracted,
          distractionStartTime := some 500 }).pendingMessage := by
  constructor
  · rfl
  · decide

/-- C3 (amended): whenever message generation fails — client never
initialized, request error, or empty response text — the engine stores a
non-empty fallback message drawn from the static pool of the new
escalation level (the choice within that pool is random, not
deterministic), and the escalation transition still completes: the level
advances to the new level, also when the awaited generation call itself
rejects. -/
theorem c3_fallback_and_transition (env : Focal.GeminiEnv)
    (draw now lvl : Nat) (st : Focal.FocusStore)
    (hact : st.isSessionActive = true)
    (hdis : st.focusState = Focal.FocusState.distracted)
    (hdst : Focal.truthy st.distractionStartTime = true)
    (hdec : Focal.escalationDecisionOf now st =
      { shouldEscalate := true, newLevel := lvl }) :
    ((env = Focal.GeminiEnv.notInitialized ∨ env = Focal.GeminiEnv.svcError ∨
      (∃ t, env = Focal.GeminiEnv.svcResponse t ∧ t.trim.length = 0)) →
      (Focal.checkEscalation (Focal.PollGen.call env) draw now
          st).escalationLevel = lvl ∧
      (Focal.checkEscalation (Focal.PollGen.call env) draw now
          st).pendingMessage =
        some (Focal.getRandomFallbackMessage lvl draw)) ∧
    (Focal.checkEscalation Focal.PollGen.throws draw now
        st).escalationLevel = lvl ∧
    0 < (Focal.getRandomFallbackMessage lvl draw).length ∧
    Focal.getRandomFallbackMessage lvl draw ∈ Focal.fallbackPoolOf lvl := by
  have hs : (Focal.escalationDecisionOf now st).shouldEscalate = true := by
    rw [hdec]
  have hspec := Focal.escalationDecisionOf_spec now st hs
  have hlvl : lvl = st.escalationLevel + 1 := by
    have h1 := hspec.1
    rw [hdec] at h1
    exact h1
  have hgt : (Focal.escalationDecisionOf now st).newLevel >
      st.escalationLevel := by
    rw [hdec]
    show st.escalationLevel < lvl
    omega
  have hstep : ∀ g, Focal.checkEscalation g draw now st =
      Focal.runEscalationStep g draw now st := fun g =>
    Focal.checkEscalation_escalates g draw now st hact hdis hdst hs hgt
  have hmin : min (st.escalationLevel + 1) 3 = lvl := by
    have := hspec.2
    omega
  refine ⟨?_, ?_, Focal.getRandomFallbackMessage_length_pos lvl draw,
    Focal.getRandomFallbackMessage_mem lvl draw⟩
  · intro hfail
    rw [hstep]
    constructor
    · show min (st.escalationLevel + 1) 3 = lvl
      exact hmin
    · show some (Focal.generateInterventionMessage env draw
        (Focal.promptContextOf now st
          (Focal.escalationDecisionOf now st).newLevel)) =
        some (Focal.getRandomFallbackMessage lvl draw)
      rcases hfail with h | h | ⟨t, ht, htrim⟩
      · subst h
        show some (Focal.getRandomFallbackMessage
          (Focal.escalationDecisionOf now st).newLevel draw) = _
        rw [hdec]
      · subst h
        show some (Focal.getRandomFallbackMessage
          (Focal.escalationDecisionOf now st).newLevel draw) = _
        rw [hdec]
      · subst ht
        show some (Focal.generateInterventionMessage
          (Focal.GeminiEnv.svcResponse t) draw _) = _
        rw [Focal.generateInterventionMessage, if_pos htrim]
        show some (Focal.getRandomFallbackMessage
          (Focal.escalationDecisionOf now st).newLevel draw) = _
        rw [hdec]
  · rw [hstep]
    show min (st.escalationLevel + 1) 3 = lvl
    exact hmin

/-- Concrete distracted state for the C3 witness: active session, level
0, distraction started at t = 500 ms, polled at t = 5500 ms. -/
def c3State : Focal.FocusStore :=
  { Focal.initialStore with
    isSessionActive := true, focusState := Focal.FocusState.distracted,
    distractionStartTime := some 500 }

/-- Witness for C3: at the concrete state, a failing generation call
(service error) still advances the level to 1 and stores the level-1
fallback message for draw 2. -/
theorem c3_fallback_and_transition_witness :
    (c3State.isSessionActive = true ∧
      c3State.focusState = Focal.FocusState.distracted ∧
      Focal.truthy c3State.distractionStartTime = true ∧
      Focal.escalationDecisionOf 5500 c3State =
        { shouldEscalate := true, newLevel := 1 }) ∧
    ((Focal.checkEscalation (Focal.PollGen.call Focal.GeminiEnv.svcError) 2
        5500 c3State).escalationLevel = 1 ∧
      (Focal.checkEscalation (Focal.PollGen.call Focal.GeminiEnv.svcError) 2
        5500 c3State).pendingMessage =
        some (Focal.getRandomFallbackMessage 1 2)) ∧
    (Focal.checkEscalation Focal.PollGen.throws 2 5500
        c3State).escalationLevel = 1 ∧
    0 < (Focal.getRandomFallbackMessage 1 2).length ∧
    Focal.getRandomFallbackMessage 1 2 ∈ Focal.fallbackPoolOf 1 :=
  ⟨⟨rfl, rfl, rfl, rfl⟩,
    (c3_fallback_and_transition Focal.GeminiEnv.svcError 2 5500 1 c3State
        rfl rfl rfl rfl).1 (Or.inr (Or.inl rfl)),
    ((c3_fallback_and_transition Focal.GeminiEnv.svcError 2 5500 1 c3State
        rfl rfl rfl rfl).2 : _)⟩

namespace Focal

/-- A confidence scaled by a factor in [0,1] stays in [0,1]. -/
theorem scaled_confidence_range {c k : ℚ} (hc0 : 0 ≤ c) (hc1 : c ≤ 1)
    (hk0 : 0 ≤ k) (hk1 : k ≤ 1) : 0 ≤ c * k ∧ c * k ≤ 1 :=
  ⟨mul_nonneg hc0 hk0, by nlinarith⟩

/-- The 70/30 blend of two confidences in [0,1] stays in [0,1]. -/
theorem blend_confidence_range {a b : ℚ} (ha0 : 0 ≤ a) (ha1 : a ≤ 1)
    (hb0 : 0 ≤ b) (hb1 : b ≤ 1) :
    0 ≤ a * 0.7 + b * 0.3 ∧ a * 0.7 + b * 0.3 ≤ 1 := by
  constructor <;> nlinarith

/-- `min 1 x` of a non-negative `x` is in [0,1]. -/
theorem min_one_range {x : ℚ} (hx : 0 ≤ x) : 0 ≤ min 1 x ∧ min 1 x ≤ 1 :=
  ⟨le_min zero_le_one hx, min_le_left _ _⟩

/-- The local MediaPipe verdict's confidence is in [0,1] whenever the
detection confidence is. -/
theorem mediapipeVerdict_confidence_range (hp : HeadPose) (e : Bool)
    {c : ℚ} (h0 : 0 ≤ c) (h1 : c ≤ 1) :
    0 ≤ (mediapipeVerdict hp e c).confidence ∧
      (mediapipeVerdict hp e c).confidence ≤ 1 := by
  unfold mediapipeVerdict
  split_ifs <;> simp only [] <;>
    first
      | ((constructor <;> norm_num); done)
      | exact ⟨h0, h1⟩
      | exact ⟨le_min (by norm_num) (div_nonneg (abs_nonneg _) (by norm_num)),
          min_le_left _ _⟩

end Focal

/-- C5: for inputs whose local and oracle confidences are in [0,1], the
classifier's output confidence is in [0,1] in every branch; and in the
disagreement branch (face detected, confidence not low, pose available,
oracle present, states differ) the strictly more confident side wins with
confidence winner·0.7 + loser·0.3. -/
theorem c5_fusion_confidence_range (input : Focal.FocusClassifierInput)
    (h0 : 0 ≤ input.confidence) (h1 : input.confidence ≤ 1)
    (horacle : ∀ oa, input.overshootAnalysis = some oa →
      0 ≤ oa.confidence ∧ oa.confidence ≤ 1) :
    (0 ≤ (Focal.classifyFocusState input).confidence ∧
      (Focal.classifyFocusState input).confidence ≤ 1) ∧
    (∀ hp oa, input.faceDetected = true →
      ¬input.confidence < Focal.MIN_CONFIDENCE →
      input.headPose = some hp → input.overshootAnalysis = some oa →
      (Focal.mediapipeVerdict hp input.eyesOpen input.confidence).state ≠
        oa.state →
      (oa.confidence >
          (Focal.mediapipeVerdict hp input.eyesOpen
            input.confidence).confidence →
        (Focal.classifyFocusState input).state = oa.state ∧
        (Focal.classifyFocusState input).confidence =
          oa.confidence * 0.7 +
            (Focal.mediapipeVerdict hp input.eyesOpen
              input.confidence).confidence * 0.3) ∧
      (¬oa.confidence >
          (Focal.mediapipeVerdict hp input.eyesOpen
            input.confidence).confidence →
        (Focal.classifyFocusState input).state =
          (Focal.mediapipeVerdict hp input.eyesOpen
            input.confidence).state ∧
        (Focal.classifyFocusState input).confidence =
          (Focal.mediapipeVerdict hp input.eyesOpen
            input.confidence).confidence * 0.7 + oa.confidence * 0.3)) := by
  constructor
  · rcases hoa : input.overshootAnalysis with _ | oa
    · rcases hhp : input.headPose with _ | hp
      · simp only [Focal.classifyFocusState, hoa, hhp]
        split_ifs <;> simp only [] <;>
          first
            | ((constructor <;> norm_num); done)
            | ((constructor <;> linarith); done)
      · obtain ⟨hm0, hm1⟩ :=
          Focal.mediapipeVerdict_confidence_range hp input.eyesOpen h0 h1
        simp only [Focal.classifyFocusState, hoa, hhp]
        split_ifs <;> simp only [] <;>
          first
            | ((constructor <;> norm_num); done)
            | ((constructor <;> linarith); done)
            | exact ⟨hm0, hm1⟩
    · obtain ⟨ho0, ho1⟩ := horacle oa hoa
      rcases hhp : input.headPose with _ | hp
      · simp only [Focal.classifyFocusState, hoa, hhp]
        split_ifs <;> simp only [] <;>
          first
            | ((constructor <;> norm_num); done)
            | ((constructor <;> linarith); done)
      · obtain ⟨hm0, hm1⟩ :=
          Focal.mediapipeVerdict_confidence_range hp input.eyesOpen h0 h1
        simp only [Focal.classifyFocusState, hoa, hhp]
        split_ifs <;> simp only [] <;>
          first
            | ((constructor <;> norm_num); done)
            | ((constructor <;> linarith); done)
            | exact ⟨hm0, hm1⟩
            | exact ⟨le_min (by norm_num) (by linarith), min_le_left _ _⟩
  · intro hp oa hface hnl hhp hoa hne
    have hface' : ¬input.faceDetected = false := by simp [hface]
    simp only [Focal.classifyFocusState, hhp, hoa, if_neg hface',
      if_neg hnl, if_neg hne]
    constructor
    · intro hgt
      rw [if_pos hgt]
      exact ⟨rfl, rfl⟩
    · intro hle
      rw [if_neg hle]
      exact ⟨rfl, rfl⟩

/-- Concrete C5 witness input: face detected with confidence 0.8, yaw 30°
(local verdict Distracted), oracle verdict Focused with confidence 0.9 —
a genuine disagreement where the oracle is strictly more confident. -/
def c5Input : Focal.FocusClassifierInput :=
  { faceDetected := true,
    headPose := some { yaw := 30, pitch := 0, roll := 0 },
    eyesOpen := true, confidence := 0.8,
    overshootAnalysis := some
      { state := Focal.FocusState.focused, reason := "typing",
        confidence := 0.9 } }

/-- Witness for C5 at the concrete disagreement input. -/
theorem c5_fusion_confidence_range_witness :
    (0 ≤ c5Input.confidence ∧ c5Input.confidence ≤ 1) ∧
    ((0 ≤ (Focal.classifyFocusState c5Input).confidence ∧
      (Focal.classifyFocusState c5Input).confidence ≤ 1) ∧
    (∀ hp oa, c5Input.faceDetected = true →
      ¬c5Input.confidence < Focal.MIN_CONFIDENCE →
      c5Input.headPose = some hp → c5Input.overshootAnalysis = some oa →
      (Focal.mediapipeVerdict hp c5Input.eyesOpen
        c5Input.confidence).state ≠ oa.state →
      (oa.confidence >
          (Focal.mediapipeVerdict hp c5Input.eyesOpen
            c5Input.confidence).confidence →
        (Focal.classifyFocusState c5Input).state = oa.state ∧
        (Focal.classifyFocusState c5Input).confidence =
          oa.confidence * 0.7 +
            (Focal.mediapipeVerdict hp c5Input.eyesOpen
              c5Input.confidence).confidence * 0.3) ∧
      (¬oa.confidence >
          (Focal.mediapipeVerdict hp c5Input.eyesOpen
            c5Input.confidence).confidence →
        (Focal.classifyFocusState c5Input).state =
          (Focal.mediapipeVerdict hp c5Input.eyesOpen
            c5Input.confidence).state ∧
        (Focal.classifyFocusState c5Input).confidence =
          (Focal.mediapipeVerdict hp c5Input.eyesOpen
            c5Input.confidence).confidence * 0.7 + oa.confidence * 0.3))) :=
  ⟨⟨by norm_num [c5Input], by norm_num [c5Input]⟩,
    c5_fusion_confidence_range c5Input (by norm_num [c5Input])
      (by norm_num [c5Input])
      (fun oa h => by
        injection h with h2
        rw [← h2]
        exact ⟨by norm_num, by norm_num⟩)⟩

namespace Focal

/-- Whether `sub` matches the beginning of `s` (character lists). -/
def startsWithChars : List Char → List Char → Bool
  | [], _ => true
  | _ :: _, [] => false
  | a :: as, b :: bs => a == b && startsWithChars as bs

/-- Whether `sub` occurs contiguously anywhere in `s` (character lists). -/
def occursIn (sub : List Char) : List Char → Bool
  | [] => startsWithChars sub []
  | b :: bs => startsWithChars sub (b :: bs) || occursIn sub bs

/-- A string mentions `sub` iff `sub` occurs contiguously in it. -/
def mentions (sub s : String) : Bool := occursIn sub.toList s.toList

/-- A head match survives appending on the right. -/
theorem startsWithChars_append {sub s t : List Char}
    (h : startsWithChars sub s = true) :
    startsWithChars sub (s ++ t) = true := by
  induction sub generalizing s with
  | nil => rfl
  | cons a as ih =>
    cases s with
    | nil => cases h
    | cons b bs =>
      simp only [startsWithChars, Bool.and_eq_true] at h
      simp only [List.cons_append, startsWithChars, Bool.and_eq_true]
      exact ⟨h.1, ih h.2⟩

/-- The empty pattern occurs in every list. -/
theorem occursIn_nil (t : List Char) : occursIn [] t = true := by
  cases t <;> rfl

/-- An occurrence survives appending on the right. -/
theorem occursIn_append_left {sub s t : List Char}
    (h : occursIn sub s = true) : occursIn sub (s ++ t) = true := by
  induction s with
  | nil =>
    cases sub with
    | nil => exact occursIn_nil t
    | cons c cs => cases h
  | cons b bs ih =>
    simp only [occursIn, Bool.or_eq_true] at h
    simp only [List.cons_append, occursIn, Bool.or_eq_true]
    rcases h with h | h
    · exact Or.inl (startsWithChars_append h)
    · exact Or.inr (ih h)

/-- If a non-empty pattern occurs, its first character is in the list. -/
theorem occursIn_head_mem {c : Char} {cs s : List Char}
    (h : occursIn (c :: cs) s = true) : c ∈ s := by
  induction s with
  | nil => cases h
  | cons b bs ih =>
    simp only [occursIn, Bool.or_eq_true] at h
    rcases h with h | h
    · simp only [startsWithChars, Bool.and_eq_true, beq_iff_eq] at h
      exact h.1 ▸ List.mem_cons_self b bs
    · exact List.mem_cons_of_mem b (ih h)

/-- A pattern whose first character does not appear cannot occur. -/
theorem occursIn_eq_false {c : Char} {cs s : List Char} (h : c ∉ s) :
    occursIn (c :: cs) s = false := by
  cases hoc : occursIn (c :: cs) s with
  | false => rfl
  | true => exact absurd (occursIn_head_mem hoc) h

/-- `Nat.digitChar` of a digit value is a decimal digit character. -/
theorem digitChar_isDigit {d : Nat} (h : d < 10) :
    (Nat.digitChar d).isDigit = true := by
  interval_cases d <;> decide

/-- Every character produced by `natDigits` is a decimal digit. -/
theorem natDigits_isDigit (n : Nat) : ∀ c ∈ natDigits n, c.isDigit = true := by
  induction n using natDigits.induct with
  | case1 n h =>
    intro c hc
    rw [natDigits, dif_pos h, List.mem_singleton] at hc
    subst hc
    exact digitChar_isDigit h
  | case2 n h ih =>
    intro c hc
    rw [natDigits, dif_neg h] at hc
    rcases List.mem_append.mp hc with hc | hc
    · exact ih c hc
    · rw [List.mem_singleton] at hc
      subst hc
      exact digitChar_isDigit (Nat.mod_lt _ (by omega))

end Focal

namespace Focal

/-- Every list matches itself at the head. -/
theorem startsWithChars_refl (l : List Char) : startsWithChars l l = true := by
  induction l with
  | nil => rfl
  | cons a as ih => simp [startsWithChars, ih]

/-- Every pattern occurs in itself. -/
theorem occursIn_self (sub : List Char) : occursIn sub sub = true := by
  cases sub with
  | nil => rfl
  | cons c cs => simp [occursIn, startsWithChars_refl]

/-- An occurrence survives prepending on the left. -/
theorem occursIn_append_right {sub t : List Char} (s : List Char)
    (h : occursIn sub t = true) : occursIn sub (s ++ t) = true := by
  induction s with
  | nil => exact h
  | cons b bs ih => simp [occursIn, ih]

/-- A direction word is mentioned by the reason string built around it. -/
theorem mentions_direction (dir : String) (k : Nat) :
    mentions dir ("Looking " ++ dir ++ " (" ++ natRepr k ++ "°)") = true := by
  unfold mentions
  have hlist : ("Looking " ++ dir ++ " (" ++ natRepr k ++ "°)").toList =
      "Looking ".toList ++ (dir.toList ++
        (" (".toList ++ ((natRepr k).toList ++ "°)".toList))) := by
    simp [String.toList, String.data_append, List.append_assoc]
  rw [hlist]
  exact occursIn_append_right _
    (occursIn_append_left (occursIn_self dir.toList))

/-- The reason built around "left" never mentions "right": the fixed text
contains no letter r and the interpolated degrees are digits. -/
theorem not_mentions_right_in_left (k : Nat) :
    mentions "right" ("Looking " ++ "left" ++ " (" ++ natRepr k ++ "°)") =
      false := by
  unfold mentions
  rw [show "right".toList = 'r' :: "ight".toList from rfl]
  apply occursIn_eq_false
  intro hm
  have hlist : ("Looking " ++ "left" ++ " (" ++ natRepr k ++ "°)").toList =
      ("Looking " ++ "left" ++ " (").toList ++
        ((natRepr k).toList ++ "°)".toList) := by
    simp [String.toList, String.data_append, List.append_assoc]
  rw [hlist] at hm
  rcases List.mem_append.mp hm with h | h
  · exact absurd h (by decide)
  · rcases List.mem_append.mp h with h | h
    · exact absurd (natDigits_isDigit k _ h) (by decide)
    · exact absurd h (by decide)

/-- The reason built around "right" never mentions "left". -/
theorem not_mentions_left_in_right (k : Nat) :
    mentions "left" ("Looking " ++ "right" ++ " (" ++ natRepr k ++ "°)") =
      false := by
  unfold mentions
  rw [show "left".toList = 'l' :: "eft".toList from rfl]
  apply occursIn_eq_false
  intro hm
  have hlist : ("Looking " ++ "right" ++ " (" ++ natRepr k ++ "°)").toList =
      ("Looking " ++ "right" ++ " (").toList ++
        ((natRepr k).toList ++ "°)".toList) := by
    simp [String.toList, String.data_append, List.append_assoc]
  rw [hlist] at hm
  rcases List.mem_append.mp hm with h | h
  · exact absurd h (by decide)
  · rcases List.mem_append.mp h with h | h
    · exact absurd (natDigits_isDigit k _ h) (by decide)
    · exact absurd h (by decide)

end Focal

/-- C7: with a face detected at confidence at least 0.5, a head pose
present, no oracle verdict and `|yaw| > 25`, the classifier returns
Distracted with confidence `min 1 (|yaw|/45)`, and the reason mentions
"left" iff `yaw < 0` and "right" iff `yaw > 0`, with the rounded absolute
degrees interpolated. -/
theorem c7_yaw_distraction_direction (input : Focal.FocusClassifierInput)
    (hp : Focal.HeadPose) (hface : input.faceDetected = true)
    (hconf : Focal.MIN_CONFIDENCE ≤ input.confidence)
    (hhp : input.headPose = some hp)
    (hoa : input.overshootAnalysis = none)
    (hyaw : 25 < |hp.yaw|) :
    (Focal.classifyFocusState input).state = Focal.FocusState.distracted ∧
    (Focal.classifyFocusState input).confidence = min 1 (|hp.yaw| / 45) ∧
    (Focal.mentions "left" (Focal.classifyFocusState input).reason = true ↔
      hp.yaw < 0) ∧
    (Focal.mentions "right" (Focal.classifyFocusState input).reason = true ↔
      0 < hp.yaw) ∧
    (Focal.classifyFocusState input).reason =
      "Looking " ++ (if hp.yaw > 0 then "right" else "left") ++ " (" ++
        Focal.natRepr (Focal.jsRound |hp.yaw|).toNat ++ "°)" := by
  have hface' : ¬input.faceDetected = false := by simp [hface]
  have hconf' : ¬input.confidence < Focal.MIN_CONFIDENCE := not_lt.mpr hconf
  have hocc : Focal.classifyFocusState input =
      { state := Focal.FocusState.distracted,
        confidence := min 1 (|hp.yaw| / 45),
        reason := "Looking " ++ (if hp.yaw > 0 then "right" else "left") ++
          " (" ++ Focal.natRepr (Focal.jsRound |hp.yaw|).toNat ++ "°)" } := by
    simp only [Focal.classifyFocusState, hoa, hhp, if_neg hface',
      if_neg hconf']
    rw [Focal.mediapipeVerdict,
      if_pos (show |hp.yaw| > Focal.YAW_DISTRACTED from hyaw)]
  rw [hocc]
  by_cases hy : hp.yaw > 0
  · rw [if_pos hy]
    refine ⟨rfl, rfl, ?_, ?_, rfl⟩
    · constructor
      · intro h
        rw [Focal.not_mentions_left_in_right] at h
        cases h
      · intro hneg
        exact absurd hy (by linarith)
    · exact ⟨fun _ => hy, fun _ => Focal.mentions_direction "right" _⟩
  · rw [if_neg hy]
    have hneg : hp.yaw < 0 := by
      rcases lt_trichotomy hp.yaw 0 with h | h | h
      · exact h
      · exfalso
        rw [h, abs_zero] at hyaw
        norm_num at hyaw
      · exact absurd h hy
    refine ⟨rfl, rfl, ?_, ?_, rfl⟩
    · exact ⟨fun _ => hneg, fun _ => Focal.mentions_direction "left" _⟩
    · constructor
      · intro h
        rw [Focal.not_mentions_right_in_left] at h
        cases h
      · intro hpos
        exact absurd hpos hy

/-- Concrete C7 witness input: face detected at confidence 0.8, yaw -30°,
no oracle. -/
def c7Input : Focal.FocusClassifierInput :=
  { faceDetected := true,
    headPose := some { yaw := -30, pitch := 0, roll := 0 },
    eyesOpen := true, confidence := 0.8, overshootAnalysis := none }

/-- Witness for C7 at the concrete yaw -30° input. -/
theorem c7_yaw_distraction_direction_witness :
    (c7Input.faceDetected = true ∧
      Focal.MIN_CONFIDENCE ≤ c7Input.confidence ∧
      (25:ℚ) < |({ yaw := -30, pitch := 0, roll := 0 } :
        Focal.HeadPose).yaw|) ∧
    ((Focal.classifyFocusState c7Input).state = Focal.FocusState.distracted ∧
    (Focal.classifyFocusState c7Input).confidence =
      min 1 (|({ yaw := -30, pitch := 0, roll := 0 } :
        Focal.HeadPose).yaw| / 45) ∧
    (Focal.mentions "left" (Focal.classifyFocusState c7Input).reason = true ↔
      ({ yaw := -30, pitch := 0, roll := 0 } : Focal.HeadPose).yaw < 0) ∧
    (Focal.mentions "right" (Focal.classifyFocusState c7Input).reason = true ↔
      0 < ({ yaw := -30, pitch := 0, roll := 0 } : Focal.HeadPose).yaw) ∧
    (Focal.classifyFocusState c7Input).reason =
      "Looking " ++
        (if ({ yaw := -30, pitch := 0, roll := 0 } :
          Focal.HeadPose).yaw > 0 then "right" else "left") ++ " (" ++
        Focal.natRepr (Focal.jsRound
          |({ yaw := -30, pitch := 0, roll := 0 } :
            Focal.HeadPose).yaw|).toNat ++ "°)") :=
  ⟨⟨rfl, by norm_num [c7Input, Focal.MIN_CONFIDENCE], by norm_num⟩,
    c7_yaw_distraction_direction c7Input
      { yaw := -30, pitch := 0, roll := 0 } rfl
      (by norm_num [c7Input, Focal.MIN_CONFIDENCE]) rfl rfl (by norm_num)⟩

namespace Focal

/-- A 3D facial landmark point, `{x, y, z}` in normalized image
coordinates. -/
structure Point3 where
  x : ℚ
  y : ℚ
  z : ℚ
deriving DecidableEq, Repr, Inhabited

/-- `clamp` in focusClassifier.ts: `Math.max(min, Math.min(max, value))`. -/
def clamp (value lo hi : ℚ) : ℚ := max lo (min hi value)

/-- `calculateHeadPose` of focusClassifier.ts.  The transcendental
`Math.atan2(y, x) * (180 / Math.PI)` is abstracted as the parameter
`atan2deg` (the verified properties hold for every value it returns); the
`Option` input models the JS `!landmarks` null check, and `getD` indexing
is total like in-bounds JS array access (all indices are below 468). -/
def calculateHeadPose (atan2deg : ℚ → ℚ → ℚ)
    (landmarks : Option (List Point3)) : Option HeadPose :=
  match landmarks with
  | none => none
  | some lms =>
    if lms.length < 468 then none
    else
      let noseTip := lms.getD 1 default
      let noseBridge := lms.getD 6 default
      let leftEye := lms.getD 33 default
      let rightEye := lms.getD 263 default
      let leftMouth := lms.getD 61 default
      let rightMouth := lms.getD 291 default
      let eyeCenter : Point3 :=
        { x := (leftEye.x + rightEye.x) / 2,
          y := (leftEye.y + rightEye.y) / 2,
          z := (leftEye.z + rightEye.z) / 2 }
      let yaw := atan2deg (noseTip.z - eyeCenter.z) 0.1
      let pitch := atan2deg (noseTip.z - noseBridge.z)
        (noseTip.y - noseBridge.y)
      let roll := atan2deg (rightEye.y - leftEye.y) (rightEye.x - leftEye.x)
      let mouthCenterX := (leftMouth.x + rightMouth.x) / 2
      let yawFromMouth := (noseTip.x - mouthCenterX) * 180
      let finalYaw := yaw * 0.3 + yawFromMouth * 0.7
      some { yaw := clamp finalYaw (-90) 90,
             pitch := clamp pitch (-90) 90,
             roll := clamp roll (-180) 180 }

/-- `clamp` lands in the target interval whenever it is non-empty. -/
theorem clamp_range (v : ℚ) {lo hi : ℚ} (h : lo ≤ hi) :
    lo ≤ clamp v lo hi ∧ clamp v lo hi ≤ hi :=
  ⟨le_max_left _ _, max_le h (min_le_left _ _)⟩

end Focal

set_option maxHeartbeats 1000000 in
/-- C8: `calculateHeadPose` is total and range-safe: it returns absent
for a missing or too-short landmark sequence, and any returned pose has
`yaw, pitch ∈ [-90, 90]` and `roll ∈ [-180, 180]` — for every possible
value of the abstracted `atan2` computation. -/
theorem c8_head_pose_total_and_clamped (atan2deg : ℚ → ℚ → ℚ)
    (landmarks : Option (List Focal.Point3)) :
    (landmarks = none → Focal.calculateHeadPose atan2deg landmarks = none) ∧
    (∀ lms, landmarks = some lms → lms.length < 468 →
      Focal.calculateHeadPose atan2deg landmarks = none) ∧
    (∀ pose, Focal.calculateHeadPose atan2deg landmarks = some pose →
      -90 ≤ pose.yaw ∧ pose.yaw ≤ 90 ∧
      -90 ≤ pose.pitch ∧ pose.pitch ≤ 90 ∧
      -180 ≤ pose.roll ∧ pose.roll ≤ 180) := by
  refine ⟨?_, ?_, ?_⟩
  · intro h
    rw [h]
    rfl
  · intro lms h hlen
    rw [h, Focal.calculateHeadPose, if_pos hlen]
  · intro pose h
    rcases landmarks with _ | lms
    · cases h
    · rw [Focal.calculateHeadPose] at h
      split_ifs at h with hlen
      · injection h with h2
        rw [← h2]
        refine ⟨?_, ?_, ?_, ?_, ?_, ?_⟩ <;>
          first
            | exact le_max_left _ _
            | exact max_le (by norm_num) (min_le_left _ _)

/-- Constant-zero stand-in for the abstracted atan2-in-degrees function,
used to instantiate C8 at a concrete input. -/
def zeroAtan2 : ℚ → ℚ → ℚ := fun _ _ => 0

/-- A full 468-point landmark list with every point at the origin. -/
def sampleLandmarks : List Focal.Point3 :=
  List.replicate 468 { x := 0, y := 0, z := 0 }

set_option maxRecDepth 4000 in
/-- Witness for C8: the missing-input case, the short-input case, and a
returned pose at a concrete 468-point landmark list. -/
theorem c8_head_pose_total_and_clamped_witness :
    Focal.calculateHeadPose zeroAtan2 none = none ∧
    Focal.calculateHeadPose zeroAtan2 (some []) = none ∧
    (Focal.calculateHeadPose zeroAtan2 (some sampleLandmarks) =
      some { yaw := 0, pitch := 0, roll := 0 } ∧
    (-90 ≤ ({ yaw := 0, pitch := 0, roll := 0 } : Focal.HeadPose).yaw ∧
      ({ yaw := 0, pitch := 0, roll := 0 } : Focal.HeadPose).yaw ≤ 90 ∧
      -90 ≤ ({ yaw := 0, pitch := 0, roll := 0 } : Focal.HeadPose).pitch ∧
      ({ yaw := 0, pitch := 0, roll := 0 } : Focal.HeadPose).pitch ≤ 90 ∧
      -180 ≤ ({ yaw := 0, pitch := 0, roll := 0 } : Focal.HeadPose).roll ∧
      ({ yaw := 0, pitch := 0, roll := 0 } : Focal.HeadPose).roll ≤ 180)) := by
  have hpt : ∀ i, sampleLandmarks.getD i default =
      ({ x := 0, y := 0, z := 0 } : Focal.Point3) := by
    intro i
    simp only [sampleLandmarks, List.getD_eq_getElem?_getD,
      List.getElem?_replicate]
    split_ifs <;> rfl
  have hmain : Focal.calculateHeadPose zeroAtan2 (some sampleLandmarks) =
      some { yaw := 0, pitch := 0, roll := 0 } := by
    rw [Focal.calculateHeadPose,
      if_neg (show ¬sampleLandmarks.length < 468 by simp [sampleLandmarks])]
    simp only [hpt]
    norm_num [Focal.clamp, zeroAtan2]
  exact ⟨(c8_head_pose_total_and_clamped zeroAtan2 none).1 rfl,
    (c8_head_pose_total_and_clamped zeroAtan2 (some [])).2.1 [] rfl
      (by decide),
    hmain,
    (c8_head_pose_total_and_clamped zeroAtan2 (some sampleLandmarks)).2.2
      { yaw := 0, pitch := 0, roll := 0 } hmain⟩

namespace Focal

/-- In a distracted state whose poll decides not to escalate, the poll
leaves the store untouched. -/
theorem checkEscalation_distracted_noesc (g : PollGen) (draw now : Nat)
    (st : FocusStore) (hact : st.isSessionActive = true)
    (hdis : st.focusState = FocusState.distracted)
    (hdst : truthy st.distractionStartTime = true)
    (hno : (escalationDecisionOf now st).shouldEscalate = false) :
    checkEscalation g draw now st = st := by
  rw [checkEscalation, if_neg (by simp [hact] : ¬st.isSessionActive = false),
    if_neg (fun hc => absurd (hdis.symm.trans hc.1)
      (by decide : ¬(FocusState.distracted = FocusState.focused))),
    if_neg (fun hc => hc.elim (fun h1 => h1 hdis)
      (fun h2 => absurd (hdst.symm.trans h2) (by decide))),
    if_neg (fun hc => absurd (hno.symm.trans hc.1) (by decide))]

/-- Field effects of the escalation step: the level increments (capped at
3), `lastEscalationTime` is stamped, and the tracked transition fields
are untouched, whether or not message generation succeeds. -/
theorem runEscalationStep_fields (g : PollGen) (draw now : Nat)
    (st : FocusStore) :
    (runEscalationStep g draw now st).escalationLevel =
      min (st.escalationLevel + 1) 3 ∧
    (runEscalationStep g draw now st).lastEscalationTime = some now ∧
    (runEscalationStep g draw now st).isSessionActive = st.isSessionActive ∧
    (runEscalationStep g draw now st).focusState = st.focusState ∧
    (runEscalationStep g draw now st).distractionStartTime =
      st.distractionStartTime ∧
    (runEscalationStep g draw now st).focusedSinceReset =
      st.focusedSinceReset := by
  cases g <;> exact ⟨rfl, rfl, rfl, rfl, rfl, rfl⟩

/-- `escalationDecisionOf` when no escalation has been stamped yet. -/
theorem escalationDecisionOf_no_last (now : Nat) (st : FocusStore)
    (t0 : Nat) (hdst : st.distractionStartTime = some t0)
    (hlesc : st.lastEscalationTime = none) :
    escalationDecisionOf now st =
      determineEscalationLevel st.escalationLevel (now - t0) (now - t0) := by
  unfold escalationDecisionOf timeSinceLastEscalationOf distractionDurationOf
  rw [hdst, hlesc]
  simp [truthy]

/-- `escalationDecisionOf` when a nonzero escalation stamp exists. -/
theorem escalationDecisionOf_some_last (now : Nat) (st : FocusStore)
    (t0 te : Nat) (hdst : st.distractionStartTime = some t0)
    (hlesc : st.lastEscalationTime = some te) (hte : te ≠ 0) :
    escalationDecisionOf now st =
      determineEscalationLevel st.escalationLevel (now - t0) (now - te) := by
  unfold escalationDecisionOf timeSinceLastEscalationOf distractionDurationOf
  rw [hdst, hlesc]
  simp [truthy, hte]

/-- `determineEscalationLevel` with the threshold constants inlined. -/
theorem determineEscalationLevel_eq (c dd tse : Nat) :
    determineEscalationLevel c dd tse =
      if c = 0 ∧ 5000 ≤ dd then { shouldEscalate := true, newLevel := 1 }
      else if c = 1 ∧ 10000 ≤ tse then
        { shouldEscalate := true, newLevel := 2 }
      else if c = 2 ∧ 15000 ≤ tse then
        { shouldEscalate := true, newLevel := 3 }
      else { shouldEscalate := false, newLevel := c } := rfl

/-- The C1 scenario's initial store: a session is started and the
classifier injects `Distracted` at time `t0`, so `distractionStartTime`
is `t0`. -/
def c1Init (t0 : Nat) : FocusStore :=
  updateFocusState FocusState.distracted "looking away" t0
    (startSession 0 initialStore)

/-- The C1 scenario after `k` escalation polls: the classifier stays
`Distracted` and the poll at index `i` runs at time `t0 + 500·i`. -/
def c1Run (g : PollGen) (draw t0 : Nat) : Nat → FocusStore
  | 0 => c1Init t0
  | k + 1 => checkEscalation g draw (t0 + 500 * k) (c1Run g draw t0 k)

end Focal

namespace Focal

/-- Closed form of the C1 run: after `k` polls the session is still
active and distracted with `distractionStartTime = t0`, and the level and
escalation stamp follow the documented schedule — the escalations happen
at the polls at offsets 5000 ms (poll index 10), 15000 ms (index 30) and
30000 ms (index 60). -/
theorem c1_run_spec (g : PollGen) (draw t0 : Nat) (ht0 : t0 ≠ 0) :
    ∀ k, (c1Run g draw t0 k).isSessionActive = true ∧
      (c1Run g draw t0 k).focusState = FocusState.distracted ∧
      (c1Run g draw t0 k).distractionStartTime = some t0 ∧
      (c1Run g draw t0 k).escalationLevel =
        (if k ≤ 10 then 0 else if k ≤ 30 then 1 else if k ≤ 60 then 2
         else 3) ∧
      (c1Run g draw t0 k).lastEscalationTime =
        (if k ≤ 10 then none else if k ≤ 30 then some (t0 + 5000)
         else if k ≤ 60 then some (t0 + 15000) else some (t0 + 30000)) := by
  intro k
  induction k with
  | zero =>
    refine ⟨rfl, rfl, rfl, ?_, ?_⟩
    · rw [if_pos (by norm_num : (0:Nat) ≤ 10)]
      rfl
    · rw [if_pos (by norm_num : (0:Nat) ≤ 10)]
      rfl
  | succ k ih =>
    obtain ⟨hact, hdis, hdst, hlvl, hlesc⟩ := ih
    have hdst' : truthy (c1Run g draw t0 k).distractionStartTime = true := by
      rw [hdst]
      simp [truthy, ht0]
    simp only [c1Run]
    by_cases hA : k ≤ 9
    · have hlvl' : (c1Run g draw t0 k).escalationLevel = 0 := by
        rw [hlvl, if_pos (by omega)]
      have hlesc' : (c1Run g draw t0 k).lastEscalationTime = none := by
        rw [hlesc, if_pos (by omega)]
      have hdec : escalationDecisionOf (t0 + 500 * k) (c1Run g draw t0 k) =
          { shouldEscalate := false, newLevel := 0 } := by
        rw [escalationDecisionOf_no_last _ _ t0 hdst hlesc',
          determineEscalationLevel_eq, hlvl']
        rw [if_neg (by omega), if_neg (by omega), if_neg (by omega)]
      rw [checkEscalation_distracted_noesc g draw _ _ hact hdis hdst'
        (by rw [hdec])]
      refine ⟨hact, hdis, hdst, ?_, ?_⟩
      · rw [hlvl', if_pos (by omega)]
      · rw [hlesc', if_pos (by omega)]
    · by_cases hB : k = 10
      · subst hB
        have hlvl' : (c1Run g draw t0 10).escalationLevel = 0 := by
          rw [hlvl, if_pos (by norm_num)]
        have hlesc' : (c1Run g draw t0 10).lastEscalationTime = none := by
          rw [hlesc, if_pos (by norm_num)]
        have hdec : escalationDecisionOf (t0 + 500 * 10)
            (c1Run g draw t0 10) =
            { shouldEscalate := true, newLevel := 1 } := by
          rw [escalationDecisionOf_no_last _ _ t0 hdst hlesc',
            determineEscalationLevel_eq, hlvl']
          rw [if_pos ⟨rfl, by omega⟩]
        rw [checkEscalation_escalates g draw _ _ hact hdis hdst'
          (by rw [hdec]) (by rw [hdec, hlvl']; exact Nat.zero_lt_one)]
        obtain ⟨f1, f2, f3, f4, f5, f6⟩ :=
          runEscalationStep_fields g draw (t0 + 500 * 10) (c1Run g draw t0 10)
        refine ⟨by rw [f3, hact], by rw [f4, hdis], by rw [f5, hdst], ?_, ?_⟩
        · rw [f1, hlvl', if_neg (by norm_num), if_pos (by norm_num)]
          rfl
        · rw [f2, if_neg (by norm_num), if_pos (by norm_num),
            show t0 + 500 * 10 = t0 + 5000 by norm_num]
      · by_cases hC : k ≤ 29
        · have hlvl' : (c1Run g draw t0 k).escalationLevel = 1 := by
            rw [hlvl, if_neg (by omega), if_pos (by omega)]
          have hlesc' : (c1Run g draw t0 k).lastEscalationTime =
              some (t0 + 5000) := by
            rw [hlesc, if_neg (by omega), if_pos (by omega)]
          have hdec : escalationDecisionOf (t0 + 500 * k)
              (c1Run g draw t0 k) =
              { shouldEscalate := false, newLevel := 1 } := by
            rw [escalationDecisionOf_some_last _ _ t0 (t0 + 5000) hdst hlesc'
              (by omega), determineEscalationLevel_eq, hlvl']
            rw [if_neg (by omega), if_neg (by omega), if_neg (by omega)]
          rw [checkEscalation_distracted_noesc g draw _ _ hact hdis hdst'
            (by rw [hdec])]
          refine ⟨hact, hdis, hdst, ?_, ?_⟩
          · rw [hlvl', if_neg (by omega), if_pos (by omega)]
          · rw [hlesc', if_neg (by omega), if_pos (by omega)]
        · by_cases hD : k = 30
          · subst hD
            have hlvl' : (c1Run g draw t0 30).escalationLevel = 1 := by
              rw [hlvl, if_neg (by norm_num), if_pos (by norm_num)]
            have hlesc' : (c1Run g draw t0 30).lastEscalationTime =
                some (t0 + 5000) := by
              rw [hlesc, if_neg (by norm_num), if_pos (by norm_num)]
            have hdec : escalationDecisionOf (t0 + 500 * 30)
                (c1Run g draw t0 30) =
                { shouldEscalate := true, newLevel := 2 } := by
              rw [escalationDecisionOf_some_last _ _ t0 (t0 + 5000) hdst
                hlesc' (by omega), determineEscalationLevel_eq, hlvl']
              rw [if_neg (by omega), if_pos ⟨rfl, by omega⟩]
            rw [checkEscalation_escalates g draw _ _ hact hdis hdst'
              (by rw [hdec]) (by rw [hdec, hlvl']; exact Nat.one_lt_two)]
            obtain ⟨f1, f2, f3, f4, f5, f6⟩ := runEscalationStep_fields g draw
              (t0 + 500 * 30) (c1Run g draw t0 30)
            refine ⟨by rw [f3, hact], by rw [f4, hdis], by rw [f5, hdst],
              ?_, ?_⟩
            · rw [f1, hlvl', if_neg (by norm_num), if_neg (by norm_num),
                if_pos (by norm_num)]
              rfl
            · rw [f2, if_neg (by norm_num), if_neg (by norm_num),
                if_pos (by norm_num),
                show t0 + 500 * 30 = t0 + 15000 by norm_num]
          · by_cases hE : k ≤ 59
            · have hlvl' : (c1Run g draw t0 k).escalationLevel = 2 := by
                rw [hlvl, if_neg (by omega), if_neg (by omega),
                  if_pos (by omega)]
              have hlesc' : (c1Run g draw t0 k).lastEscalationTime =
                  some (t0 + 15000) := by
                rw [hlesc, if_neg (by omega), if_neg (by omega),
                  if_pos (by omega)]
              have hdec : escalationDecisionOf (t0 + 500 * k)
                  (c1Run g draw t0 k) =
                  { shouldEscalate := false, newLevel := 2 } := by
                rw [escalationDecisionOf_some_last _ _ t0 (t0 + 15000) hdst
                  hlesc' (by omega), determineEscalationLevel_eq, hlvl']
                rw [if_neg (by omega), if_neg (by omega), if_neg (by omega)]
              rw [checkEscalation_distracted_noesc g draw _ _ hact hdis hdst'
                (by rw [hdec])]
              refine ⟨hact, hdis, hdst, ?_, ?_⟩
              · rw [hlvl', if_neg (by omega), if_neg (by omega),
                  if_pos (by omega)]
              · rw [hlesc', if_neg (by omega), if_neg (by omega),
                  if_pos (by omega)]
            · by_cases hF : k = 60
              · subst hF
                have hlvl' : (c1Run g draw t0 60).escalationLevel = 2 := by
                  rw [hlvl, if_neg (by norm_num), if_neg (by norm_num),
                    if_pos (by norm_num)]
                have hlesc' : (c1Run g draw t0 60).lastEscalationTime =
                    some (t0 + 15000) := by
                  rw [hlesc, if_neg (by norm_num), if_neg (by norm_num),
                    if_pos (by norm_num)]
                have hdec : escalationDecisionOf (t0 + 500 * 60)
                    (c1Run g draw t0 60) =
                    { shouldEscalate := true, newLevel := 3 } := by
                  rw [escalationDecisionOf_some_last _ _ t0 (t0 + 15000) hdst
                    hlesc' (by omega), determineEscalationLevel_eq, hlvl']
                  rw [if_neg (by omega), if_neg (by omega),
                    if_pos ⟨rfl, by omega⟩]
                rw [checkEscalation_escalates g draw _ _ hact hdis hdst'
                  (by rw [hdec]) (by rw [hdec, hlvl']; exact Nat.le.refl)]
                obtain ⟨f1, f2, f3, f4, f5, f6⟩ := runEscalationStep_fields g
                  draw (t0 + 500 * 60) (c1Run g draw t0 60)
                refine ⟨by rw [f3, hact], by rw [f4, hdis], by rw [f5, hdst],
                  ?_, ?_⟩
                · rw [f1, hlvl', if_neg (by norm_num), if_neg (by norm_num),
                    if_neg (by norm_num)]
                  rfl
                · rw [f2, if_neg (by norm_num), if_neg (by norm_num),
                    if_neg (by norm_num),
                    show t0 + 500 * 60 = t0 + 30000 by norm_num]
              · have hlvl' : (c1Run g draw t0 k).escalationLevel = 3 := by
                  rw [hlvl, if_neg (by omega), if_neg (by omega),
                    if_neg (by omega)]
                have hlesc' : (c1Run g draw t0 k).lastEscalationTime =
                    some (t0 + 30000) := by
                  rw [hlesc, if_neg (by omega), if_neg (by omega),
                    if_neg (by omega)]
                have hdec : escalationDecisionOf (t0 + 500 * k)
                    (c1Run g draw t0 k) =
                    { shouldEscalate := false, newLevel := 3 } := by
                  rw [escalationDecisionOf_some_last _ _ t0 (t0 + 30000) hdst
                    hlesc' (by omega), determineEscalationLevel_eq, hlvl']
                  rw [if_neg (by omega), if_neg (by omega),
                    if_neg (by omega)]
                rw [checkEscalation_distracted_noesc g draw _ _ hact hdis
                  hdst' (by rw [hdec])]
                refine ⟨hact, hdis, hdst, ?_, ?_⟩
                · rw [hlvl', if_neg (by omega), if_neg (by omega),
                    if_neg (by omega)]
                · rw [hlesc', if_neg (by omega), if_neg (by omega),
                    if_neg (by omega)]

end Focal

/-- C1 counterexample: if the distraction episode literally starts at
simulated time t = 0 (so `distractionStartTime = 0`, as the claim's
"inject Distracted at t=0" prescribes), the escalation check always
returns early — `!distractionStartTime` treats the timestamp 0 as
absent — so after the poll at t = 5s (poll index 10, state
`c1Run … 11`) the level is still 0, not 1 as the claim requires. -/
theorem c1_escalation_counterexample :
    (Focal.c1Run (Focal.PollGen.call Focal.GeminiEnv.notInitialized) 0 0
      11).escalationLevel = 0 ∧
    (Focal.c1Run (Focal.PollGen.call Focal.GeminiEnv.notInitialized) 0 0
      11).escalationLevel ≠ 1 := by
  constructor
  · rfl
  · decide

/-- C1 (amended): with the classifier continuously Distracted and the
distraction episode starting at any nonzero timestamp `t0` (JS treats
timestamp 0 as absent), under polls every 500 ms starting at `t0`, the
escalation level after `k` polls (`c1Run … k`; poll `i` runs at
`t0 + 500·i`) follows the documented schedule — 0 before the poll at
`t0+5s`, 1 from that poll up to the poll at `t0+15s`, 2 up to the poll at
`t0+30s`, and 3 after — and the level never decreases from one poll to
the next. -/
theorem c1_escalation_schedule (g : Focal.PollGen) (draw t0 : Nat)
    (ht0 : t0 ≠ 0) (k : Nat) :
    (Focal.c1Run g draw t0 k).escalationLevel =
      (if k ≤ 10 then 0 else if k ≤ 30 then 1 else if k ≤ 60 then 2
       else 3) ∧
    (Focal.c1Run g draw t0 k).escalationLevel ≤
      (Focal.c1Run g draw t0 (k + 1)).escalationLevel := by
  have h1 := (Focal.c1_run_spec g draw t0 ht0 k).2.2.2.1
  have h2 := (Focal.c1_run_spec g draw t0 ht0 (k + 1)).2.2.2.1
  refine ⟨h1, ?_⟩
  rw [h1, h2]
  split_ifs <;> omega

/-- Witness for C1: the episode starting at t0 = 500 ms, after 11 polls
(the poll at offset 5000 ms included) the level is 1 per the schedule. -/
theorem c1_escalation_schedule_witness :
    (500 ≠ 0) ∧
    ((Focal.c1Run (Focal.PollGen.call Focal.GeminiEnv.notInitialized) 0 500
        11).escalationLevel =
      (if 11 ≤ 10 then 0 else if 11 ≤ 30 then 1 else if 11 ≤ 60 then 2
       else 3) ∧
    (Focal.c1Run (Focal.PollGen.call Focal.GeminiEnv.notInitialized) 0 500
        11).escalationLevel ≤
      (Focal.c1Run (Focal.PollGen.call Focal.GeminiEnv.notInitialized) 0 500
        (11 + 1)).escalationLevel) :=
  ⟨by decide, c1_escalation_schedule
    (Focal.PollGen.call Focal.GeminiEnv.notInitialized) 0 500 (by decide) 11⟩
